import Mathlib

/-!
# Verification of `opendata-downloader.py` (dwd-grib-downloader)

Shallow embedding of the DWD open-data GRIB downloader script and proofs of
the specification claims about it.

Conventions of the embedding:
* Python strings are `String`, Python ints are `Int` (CLI `type=int` values)
  or `Nat` where the source value is manifestly non-negative (clock seconds).
* The process environment (filesystem, network, model catalog from
  `models.json`) is an explicit `Env` record; every observable side effect
  (network call, file write, directory creation, append to the global
  `failedFiles` list) is returned as data in an effect record.
* Python exceptions that the source catches are modelled as ordinary result
  values; an exception the source does *not* catch is modelled by `Option`
  (`none` = the exception propagates).
* `extendedformatter.py` and `models.json` are files of this repository that
  are not under `src/`; the template renderer and the `ModelSpec` record are
  therefore modelled from the spec (marked `Modelled from the spec:` below).
  Everything else is translated from `src/opendata-downloader.py`.
-/

namespace OpendataDownloader

/-- Global boolean flags of the script (`dryRun`, `compressed`, `skipExisting`
at lines 36-42, set from CLI args at lines 413-415). -/
structure Flags where
  dryRun : Bool
  compressed : Bool
  skipExisting : Bool
deriving Repr, DecidableEq

/-- Modelled from the spec: a `ModelSpec` record as loaded from `models.json`
(not under `src/`): model identifier, URL pattern per level-type, supported
grids (first is default), scope tag, publication-delay minutes, run-interval
hours, default min/max vertical level (the source reads the latter with
`selectedModel.get("minlevel", 0)`, so they are optional). -/
structure ModelSpec where
  model : String
  grids : List String
  scope : String
  pattern : String → String
  openDataDeliveryOffsetMinutes : Nat
  intervalHours : Nat
  minlevel : Option Int
  maxlevel : Option Int

/-- Result of one `urllib.request.urlopen(url)` + `.read()`: payload bytes,
an `HTTPError` with a status code, or a transport-level error (`URLError`,
DNS, timeout, ...). -/
inductive UrlResult where
  | ok (data : List Nat)
  | httpError (status : Nat)
  | urlError
deriving Repr, DecidableEq

/-- The process environment the script runs against: working directory,
filesystem predicates, the network, the bz2 decompressor (`none` = raises),
write success (`false` = `open`/`write` raises), and the model catalog
`supportedModels` (lines 50-54, loaded from `models.json`). -/
structure Env where
  cwd : String
  fileExists : String → Bool
  dirExists : String → Bool
  urlopen : String → UrlResult
  decompress : List Nat → Option (List Nat)
  writeOk : String → Bool
  supportedModels : String → ModelSpec

/-- An entry of the global `failedFiles` list (line 45): the source appends
`(url, e.status, HTTPError)` at line 117; the constant class tag is dropped. -/
abbrev FailedEntry := String × Nat

/-- Observable side effects of one fetch-worker invocation. -/
structure FetchEffects where
  networkCalls : List String
  writes : List String
  failedAppends : List FailedEntry
deriving Repr, DecidableEq

/-- No side effects. -/
def FetchEffects.none : FetchEffects :=
  { networkCalls := [], writes := [], failedAppends := [] }

/-- Return value plus effects of `downloadAndExtractBz2FileFromUrl`:
`ret = some p` models returning the path `p`, `ret = none` models returning
Python `None` (dry-run, or a caught exception). -/
structure FetchResult where
  ret : Option String
  effects : FetchEffects
deriving Repr, DecidableEq

/-- The dict `{"url": dataUrl, "file": output_file}` returned by
`downloadGribData` (line 172). -/
structure JobResult where
  url : String
  file : Option String
deriving Repr, DecidableEq

/-! ## The string formatter (spec-modelled)

`ExtendedFormatter` lives in `extendedformatter.py`, which is not under
`src/`. Modelled from the spec: "Template syntax uses named placeholders
with optional case-transform and zero-pad-width modifiers, resolved against
the bindings; an unknown placeholder name or an unsupported modifier fails
with `TemplateError`" and the binding list of section 4.2 (model/field name
with upper/lower variants via `!U`/`!L`, run hour zero-padded to 2 digits,
step to 3 digits, model level to 2 digits, pressure level raw). A failure
is `none` (in Python the exception would propagate out of the worker). -/

/-- A value a placeholder can be bound to. -/
inductive Binding where
  | str (s : String)
  | nat (n : Nat)
  | int (i : Int)
deriving Repr

/-- Modelled from the spec: stringify a binding the way `format` does. -/
def Binding.render : Binding → String
  | .str s => s
  | .nat n => toString n
  | .int i => toString i

/-- Python `str.split(sep)` for a single-character separator, on character
lists (structural, so that it evaluates in the kernel). -/
def splitOnChar (sep : Char) : List Char → List (List Char)
  | [] => [[]]
  | c :: rest =>
    if c = sep then [] :: splitOnChar sep rest
    else
      match splitOnChar sep rest with
      | [] => [[c]]
      | g :: gs => (c :: g) :: gs

/-- Lowercase a string (ASCII case map, as the source's patterns only use
ASCII names). -/
def strLower (s : String) : String := String.mk (s.data.map Char.toLower)

/-- Uppercase a string. -/
def strUpper (s : String) : String := String.mk (s.data.map Char.toUpper)

/-- Left-pad a string with `'0'` up to width `w`. -/
def padLeftZeros (w : Nat) (s : String) : String :=
  if w ≤ s.length then s else String.mk (List.replicate (w - s.length) '0') ++ s

/-- Read a digit sequence as a number. -/
def digitsToNat (l : List Char) : Nat :=
  l.foldl (fun n c => 10 * n + (c.toNat - 48)) 0

/-- Modelled from the spec: the zero-pad width of a format spec such as
`>02d` or `>03d` (the digits of the spec, read as a number). -/
def fmtWidth (fmt : List Char) : Nat :=
  digitsToNat (fmt.filter Char.isDigit)

/-- Look up a placeholder name in the binding list. -/
def lookupBinding (bs : List (String × Binding)) (name : String) : Option Binding :=
  (bs.find? (fun p => p.1 = name)).map Prod.snd

/-- Modelled from the spec: render one field spec `name[!conv][:fmt]`
(e.g. `model!L`, `modelrun:>02d`). Unknown placeholder or unsupported
conversion is a `TemplateError`, i.e. `none`. -/
def applyFieldSpec (bs : List (String × Binding)) (spec : List Char) : Option String :=
  let parts := splitOnChar ':' spec
  let nameConv := parts.headD []
  let fmt := (parts.drop 1).headD []
  let nc := splitOnChar '!' nameConv
  let name := String.mk (nc.headD [])
  let conv := String.mk ((nc.drop 1).headD [])
  match lookupBinding bs name with
  | Option.none => Option.none
  | some b =>
    let s := b.render
    if conv = "" then some (padLeftZeros (fmtWidth fmt) s)
    else if conv = "L" then some (padLeftZeros (fmtWidth fmt) (strLower s))
    else if conv = "U" then some (padLeftZeros (fmtWidth fmt) (strUpper s))
    else Option.none

/-- Modelled from the spec: render a pattern, character list form. Literal
characters pass through; between `\x7b` and `\x7d` a field spec is collected
(in `acc`, reversed) and substituted. An unclosed field (end of input while
`inField`) is an error, as is a failing field spec. -/
def formatCharsGo (bs : List (String × Binding)) (inField : Bool) (acc : List Char) :
    List Char → Option (List Char)
  | [] => if inField then Option.none else some []
  | c :: rest =>
    if inField then
      if c = '\x7d' then
        match applyFieldSpec bs acc.reverse with
        | Option.none => Option.none
        | some s =>
          match formatCharsGo bs false [] rest with
          | Option.none => Option.none
          | some t => some (s.data ++ t)
      else formatCharsGo bs true (c :: acc) rest
    else
      if c = '\x7b' then formatCharsGo bs true [] rest
      else
        match formatCharsGo bs false [] rest with
        | Option.none => Option.none
        | some t => some (c :: t)

/-- Modelled from the spec: `stringFormatter.format(pattern, **bindings)`. -/
def formatPattern (bs : List (String × Binding)) (pattern : String) : Option String :=
  (formatCharsGo bs false [] pattern.data).map String.mk

/-! ## Timestamp resolver -/

/-- Clock values and timestamps are UTC seconds since a fixed epoch; one day
is 86400 seconds, one hour 3600. -/
def hourOf (t : Nat) : Nat := t % 86400 / 3600

/-- `getMostRecentModelTimestamp` (lines 63-77) on the branch without an
explicit `modelrun`: subtract `waitTimeMinutes` from the current UTC time,
floor the hour down to a multiple of `modelIntervalHours`, truncate
minutes/seconds to zero (the source rebuilds the datetime from
year/month/day/flooredHour only). The clock is the injected `clockNow`
in seconds; the caller guarantees `waitTimeMinutes * 60 ≤ clockNow`
(Python datetimes cannot go below year 1). -/
def getMostRecentModelTimestamp (waitTimeMinutes modelIntervalHours clockNow : Nat) : Nat :=
  let now := clockNow - waitTimeMinutes * 60
  let latestAvailableUTCRun := (now % 86400 / 3600) / modelIntervalHours * modelIntervalHours
  (now - now % 86400) + latestAvailableUTCRun * 3600

/-! ## URL resolution (`getGribFileUrl`, lines 121-147) -/

/-- Lines 133-135: `if (grid is None) or (grid not in cfg["grids"]):
grid = cfg["grids"][0]`. (`grids[0]` on an empty grid list would raise an
`IndexError` in Python; theorems assume a non-empty grid list.) -/
def resolveGrid (cfg : ModelSpec) (grid : Option String) : String :=
  match grid with
  | Option.none => cfg.grids.headD ""
  | some g => if cfg.grids.contains g then g else cfg.grids.headD ""

/-- The keyword bindings passed to `stringFormatter.format` at lines 138-147. -/
def urlBindings (cfg : ModelSpec) (grid : String) (param : String) (timestep : Int)
    (timestamp : Nat) (levtype : String) (level : Int) : List (String × Binding) :=
  [("model", .str cfg.model), ("param", .str param), ("grid", .str grid),
   ("modelrun", .nat (hourOf timestamp)), ("scope", .str cfg.scope),
   ("levtype", .str levtype), ("timestamp", .nat timestamp),
   ("step", .int timestep), ("level", .int level)]

/-- `getGribFileUrl` (lines 121-147): look up the model's config, default or
validate the grid, render the level-type's URL pattern. `none` models a
`TemplateError` propagating (the source does not catch it). -/
def getGribFileUrl (env : Env) (model : String) (grid : Option String) (param : String)
    (timestep : Int) (timestamp : Nat) (levtype : String) (level : Int) : Option String :=
  let cfg := env.supportedModels model
  let g := resolveGrid cfg grid
  formatPattern (urlBindings cfg g param timestep timestamp levtype level) (cfg.pattern levtype)

/-! ## Fetch worker (`downloadAndExtractBz2FileFromUrl`, lines 80-119) -/

/-- `url.split('/')[-1]`. -/
def lastUrlComponent (url : String) : String :=
  String.mk ((splitOnChar '/' url.data).getLastD [])

/-- The characters before the first occurrence of `.bz2`. -/
def takeBeforeBz2 : List Char → List Char
  | [] => []
  | '.' :: 'b' :: 'z' :: '2' :: _ => []
  | c :: rest => c :: takeBeforeBz2 rest

/-- `....split('.bz2')[0]`: the part of `s` before the first `.bz2`. -/
def stripBz2 (s : String) : String :=
  String.mk (takeBeforeBz2 s.data)

/-- Lines 88-90: default the destination file name from the url when the
argument is `None` or `""`. -/
def resolveDestFileName (url : String) (destFileName : Option String) : String :=
  match destFileName with
  | Option.none => stripBz2 (lastUrlComponent url)
  | some s => if s = "" then stripBz2 (lastUrlComponent url) else s

/-- Lines 92-93: default the destination directory to `os.getcwd()`. -/
def resolveDestFilePath (cwd : String) (destFilePath : Option String) : String :=
  match destFilePath with
  | Option.none => cwd
  | some s => if s = "" then cwd else s

/-- `os.path.join(a, b)` for a non-empty `a` without trailing separator and
a relative `b` — the only shapes the script produces. -/
def pathJoin (a b : String) : String := a ++ "/" ++ b

/-- Lines 95-98: the full destination file path (`.bz2` retained when
`compressed` is set). -/
def fullFilePathOf (g : Flags) (env : Env) (url : String)
    (destFilePath destFileName : Option String) : String :=
  let dfn := resolveDestFileName url destFileName
  let dfp := resolveDestFilePath env.cwd destFilePath
  if g.compressed then pathJoin dfp (dfn ++ ".bz2") else pathJoin dfp dfn

/-- `downloadAndExtractBz2FileFromUrl` (lines 80-119). Dry-run returns
`None` at once (line 84, before any path computation). Then: skip when the
destination exists and `skipExisting` is set (lines 99-101, no network);
otherwise fetch, optionally decompress, write. The `try` block (lines
103-114) catches `HTTPError` — appending `(url, status)` to `failedFiles` —
and every other `Exception` (transport, decompression, write), which is
only logged; in both cases the function returns `None`. Nothing raises. -/
def downloadAndExtractBz2FileFromUrl (g : Flags) (env : Env) (url : String)
    (destFilePath destFileName : Option String) : FetchResult :=
  if g.dryRun then { ret := Option.none, effects := FetchEffects.none }
  else
    let fullFilePath := fullFilePathOf g env url destFilePath destFileName
    if g.skipExisting ∧ env.fileExists fullFilePath then
      { ret := some fullFilePath, effects := FetchEffects.none }
    else
      match env.urlopen url with
      | .httpError status =>
        { ret := Option.none,
          effects := { networkCalls := [url], writes := [],
                       failedAppends := [(url, status)] } }
      | .urlError =>
        { ret := Option.none,
          effects := { networkCalls := [url], writes := [], failedAppends := [] } }
      | .ok compressedData =>
        let binaryData? := if g.compressed then some compressedData
                           else env.decompress compressedData
        match binaryData? with
        | Option.none =>
          { ret := Option.none,
            effects := { networkCalls := [url], writes := [], failedAppends := [] } }
        | some _ =>
          if env.writeOk fullFilePath then
            { ret := some fullFilePath,
              effects := { networkCalls := [url], writes := [fullFilePath],
                           failedAppends := [] } }
          else
            { ret := Option.none,
              effects := { networkCalls := [url], writes := [], failedAppends := [] } }

/-- `downloadGribData` (lines 150-172): resolve the URL, run the fetch
worker, return `{"url": dataUrl, "file": output_file}`. `none` models an
uncaught `TemplateError` from URL rendering escaping the worker. -/
def downloadGribData (g : Flags) (env : Env) (model : String) (grid : Option String)
    (param : String) (timestep : Int) (timestamp : Nat)
    (destFilePath destFileName : Option String) (level : Int) (levtype : String) :
    Option (JobResult × FetchEffects) :=
  match getGribFileUrl env model grid param timestep timestamp levtype level with
  | Option.none => Option.none
  | some dataUrl =>
    let r := downloadAndExtractBz2FileFromUrl g env dataUrl destFilePath destFileName
    some ({ url := dataUrl, file := r.ret }, r.effects)

/-! ## Orchestrator (`downloadGribDataSequence`, lines 175-226) -/

/-- The local-subdirectory pattern (line 44):
`dwdPattern = "{model!L}/grib/{modelrun:>02d}/{param!L}"`. -/
def dwdPattern : String := "{model!L}/grib/{modelrun:>02d}/{param!L}"

/-- The bindings of the `stringFormatter.format(dwdPattern, ...)` call at
lines 189-195. -/
def dwdBindings (model : String) (param : String) (grid : Option String)
    (timestamp : Nat) (levtype : String) : List (String × Binding) :=
  [("model", .str model), ("param", .str param),
   ("grid", .str (grid.getD "")), ("modelrun", .nat (hourOf timestamp)),
   ("levtype", .str levtype), ("timestamp", .nat timestamp)]

/-- The subdirectory replicating the DWD tree (lines 186-196). -/
def mkSubdir (model : String) (param : String) (grid : Option String)
    (timestamp : Nat) (levtype : String) : Option String :=
  formatPattern (dwdBindings model param grid timestamp levtype) dwdPattern

/-- The submission order of the nested loops at lines 209-219:
`for timestep in timeSteps: for level in levelRange: submit(...)`. -/
def jobPairs (timeSteps levelRange : List Int) : List (Int × Int) :=
  (timeSteps.map (fun t => levelRange.map (fun l => (t, l)))).flatten

/-- Aggregate result of one `downloadGribDataSequence` call: the collected
per-job results (line 206/223; collection order is completion order in the
source — modelled in submission order, a permutation irrelevant to the
claims, which are about counts and per-job values) and the batch's
accumulated side effects. -/
structure SeqResult where
  results : List JobResult
  failedAppends : List FailedEntry
  networkCalls : List String
  writes : List String
  mkdirs : List String
deriving Repr, DecidableEq

/-- `downloadGribDataSequence` (lines 175-226). Computes the destination
directory (joining the rendered `dwdPattern` subdirectory unless `flat`),
creates it when absent (skipped under dry-run, lines 198-202), submits one
`downloadGribData` per (timestep, level) pair to a
`ThreadPoolExecutor(max_workers=maxWorkers)` and collects every future's
result. `none` models an uncaught exception: `ThreadPoolExecutor` raises
`ValueError` for `maxWorkers ≤ 0`, and a `TemplateError` raised inside any
future re-raises from `future.result()` at line 222. The pool size affects
scheduling only, never which futures are submitted or collected, so
`maxWorkers` does not appear in the result. -/
def downloadGribDataSequence (g : Flags) (env : Env) (maxWorkers : Int)
    (model : String) (flat : Bool) (grid : Option String) (param : String)
    (timeSteps levelRange : List Int) (levtype : String) (timestamp : Nat)
    (destFilePath : String) : Option SeqResult :=
  if maxWorkers ≤ 0 then Option.none
  else
    let dfp? := if flat then some destFilePath
                else (mkSubdir model param grid timestamp levtype).map
                  (fun subdir => pathJoin destFilePath subdir)
    match dfp? with
    | Option.none => Option.none
    | some dfp =>
      let mkdirs := if !env.dirExists dfp ∧ !g.dryRun then [dfp] else []
      match (jobPairs timeSteps levelRange).mapM
          (fun p => downloadGribData g env model grid param p.1 timestamp
            (some dfp) Option.none p.2 levtype) with
      | Option.none => Option.none
      | some collected =>
        some { results := collected.map Prod.fst,
               failedAppends := (collected.map (fun c => c.2.failedAppends)).flatten,
               networkCalls := (collected.map (fun c => c.2.networkCalls)).flatten,
               writes := (collected.map (fun c => c.2.writes)).flatten,
               mkdirs := mkdirs }

/-! ## `__main__` request expansion and exit (lines 403-509) -/

/-- Python `list(range(a, b + 1))`: the integers from `a` to `b` inclusive,
empty when `b < a`. -/
def intRange (a b : Int) : List Int :=
  (List.range (b + 1 - a).toNat).map (fun (i : Nat) => a + (i : Int))

/-- Line 448: `timeSteps = list(range(args.minTimeStep, args.maxTimeStep + 1))`. -/
def timeStepsOf (minTimeStep maxTimeStep : Int) : List Int :=
  intRange minTimeStep maxTimeStep

/-- Lines 449-450: `minModelLevel = args.minModelLevel if args.minModelLevel
> 0 else selectedModel.get("minlevel", 0)`. -/
def effectiveMinModelLevel (argMin : Int) (cfg : ModelSpec) : Int :=
  if 0 < argMin then argMin else cfg.minlevel.getD 0

/-- Lines 451-452: the same per-bound fallback for the maximum level. -/
def effectiveMaxModelLevel (argMax : Int) (cfg : ModelSpec) : Int :=
  if 0 < argMax then argMax else cfg.maxlevel.getD 0

/-- Line 453: `levelRange = list(range(minModelLevel, maxModelLevel + 1))`,
with each bound defaulted independently by lines 449-452. -/
def levelRangeOf (argMin argMax : Int) (cfg : ModelSpec) : List Int :=
  intRange (effectiveMinModelLevel argMin cfg) (effectiveMaxModelLevel argMax cfg)

/-- Lines 499-509: the block that would exit with `len(failedFiles)` is a
string literal (the script's final statement is a triple-quoted string, not
code), so after the download loops the script falls off the end and the
process exits with status 0 whatever `failedFiles` holds. -/
def mainExitStatus (_failedFiles : List FailedEntry) : Nat := 0

/-! ## Concrete fixtures

A small concrete model catalog and environment, used to instantiate the
theorems below on closed inputs. -/

/-- A concrete `ModelSpec` in the shape of a `models.json` entry. -/
def cfgW : ModelSpec :=
  { model := "icon-eu", grids := ["icosahedral", "regular-lat-lon"], scope := "chem",
    pattern := fun _ => "https://host/{param!L}_{step:>03d}.grib2.bz2",
    openDataDeliveryOffsetMinutes := 300, intervalHours := 3,
    minlevel := some 2, maxlevel := some 90 }

/-- A concrete `ModelSpec` whose URL pattern is just the grid placeholder,
to observe which grid URL resolution uses. -/
def cfgGridW : ModelSpec :=
  { cfgW with pattern := fun _ => "{grid}" }

/-- A concrete benign environment: nothing on disk, every fetch succeeds. -/
def envW : Env :=
  { cwd := "/cwd", fileExists := fun _ => false, dirExists := fun _ => false,
    urlopen := fun _ => .ok [1, 2, 3], decompress := fun _ => some [9],
    writeOk := fun _ => true, supportedModels := fun _ => cfgW }

/-- `envW` with a transport failure on every fetch. -/
def envUrlErrW : Env := { envW with urlopen := fun _ => .urlError }

/-- `envW` with an HTTP 404 on the step-0 URL only. -/
def envHttp404W : Env :=
  { envW with urlopen := fun u =>
      if u = "https://host/t_2m_000.grib2.bz2" then .httpError 404 else .ok [1] }

/-- `envW` with the step-0 destination file already on disk. -/
def envExistsW : Env :=
  { envW with fileExists := fun p => p = "data/t_2m_000.grib2" }

/-- `envW` with `cfgGridW` as every model's spec. -/
def envGridW : Env := { envW with supportedModels := fun _ => cfgGridW }

/-- The default flag values of a plain run: no dry-run, decompress, skip
existing files (lines 40-42 and the argparse defaults). -/
def flagsW : Flags := { dryRun := false, compressed := false, skipExisting := true }

/-- `flagsW` with the dry-run flag set. -/
def flagsDryW : Flags := { flagsW with dryRun := true }

/-- The batch result of a one-job dry run against `envW`. -/
def seqDryW : SeqResult :=
  { results := [{ url := "https://host/t_2m_000.grib2.bz2", file := Option.none }],
    failedAppends := [], networkCalls := [], writes := [], mkdirs := [] }

/-- The batch result of the same one-job batch run for real against `envW`. -/
def seqRealW : SeqResult :=
  { results := [{ url := "https://host/t_2m_000.grib2.bz2",
                  file := some "data/t_2m_000.grib2" }],
    failedAppends := [], networkCalls := ["https://host/t_2m_000.grib2.bz2"],
    writes := ["data/t_2m_000.grib2"], mkdirs := ["data"] }

/-- The batch result of a one-job non-flat run at run hour 1 against `envW`. -/
def seqTreeW : SeqResult :=
  { results := [{ url := "https://host/t_2m_000.grib2.bz2",
                  file := some "data/icon-eu/grib/01/t_2m/t_2m_000.grib2" }],
    failedAppends := [],
    networkCalls := ["https://host/t_2m_000.grib2.bz2"],
    writes := ["data/icon-eu/grib/01/t_2m/t_2m_000.grib2"],
    mkdirs := ["data/icon-eu/grib/01/t_2m"] }

/-- The batch result of a two-job flat run against `envHttp404W`: the first
job's fetch fails with HTTP 404, the second succeeds. -/
def seqFailW : SeqResult :=
  { results := [{ url := "https://host/t_2m_000.grib2.bz2", file := Option.none },
                { url := "https://host/t_2m_001.grib2.bz2",
                  file := some "data/t_2m_001.grib2" }],
    failedAppends := [("https://host/t_2m_000.grib2.bz2", 404)],
    networkCalls := ["https://host/t_2m_000.grib2.bz2",
                     "https://host/t_2m_001.grib2.bz2"],
    writes := ["data/t_2m_001.grib2"],
    mkdirs := ["data"] }

/-! ## Helper lemmas -/

theorem padLeftZeros_zero (s : String) : padLeftZeros 0 s = s := by
  simp [padLeftZeros]

/-- The rendered `dwdPattern` subdirectory, in closed form: lowercased model,
the literal `grib` component, the zero-padded run hour, the lowercased field. -/
theorem mkSubdir_eq (m p : String) (g : Option String) (ts : Nat) (lt : String) :
    mkSubdir m p g ts lt =
      some (strLower m ++ "/grib/" ++ padLeftZeros 2 (toString (hourOf ts)) ++ "/" ++ strLower p) := by
  have h : formatCharsGo (dwdBindings m p g ts lt) false [] dwdPattern.data =
      some ((padLeftZeros 0 (strLower m)).data ++
        ('/' :: 'g' :: 'r' :: 'i' :: 'b' :: '/' ::
          ((padLeftZeros 2 (toString (hourOf ts))).data ++
            ('/' :: ((padLeftZeros 0 (strLower p)).data ++ []))))) := rfl
  unfold mkSubdir formatPattern
  rw [h]
  simp only [Option.map_some', padLeftZeros_zero]
  apply congrArg
  apply String.ext
  show _ = (strLower m).data ++ ('/' :: 'g' :: 'r' :: 'i' :: 'b' :: '/' :: []) ++
    (padLeftZeros 2 (toString (hourOf ts))).data ++ ('/' :: []) ++ (strLower p).data
  simp [List.append_assoc]

theorem pathJoin_ne_empty (a b : String) : pathJoin a b ≠ "" := by
  intro h
  have h2 := congrArg String.data h
  simp [pathJoin, String.data_append] at h2

theorem mem_intRange (a b l : Int) : l ∈ intRange a b ↔ a ≤ l ∧ l ≤ b := by
  unfold intRange
  rw [List.mem_map]
  constructor
  · rintro ⟨i, hi, rfl⟩
    rw [List.mem_range] at hi
    omega
  · intro h
    exact ⟨(l - a).toNat, by rw [List.mem_range]; omega, by omega⟩

theorem intRange_eq_nil (a b : Int) (h : b < a) : intRange a b = [] := by
  unfold intRange
  have h0 : (b + 1 - a).toNat = 0 := by omega
  rw [h0]
  rfl

theorem jobPairs_length (ts ls : List Int) :
    (jobPairs ts ls).length = ts.length * ls.length := by
  induction ts with
  | nil => simp [jobPairs]
  | cons t rest ih =>
    simp only [jobPairs, List.map_cons, List.flatten_cons, List.length_append,
      List.length_map, List.length_cons] at *
    rw [ih]
    ring

theorem jobPairs_nil_right (ts : List Int) : jobPairs ts [] = [] := by
  induction ts with
  | nil => rfl
  | cons t rest ih =>
    simp only [jobPairs, List.map_cons, List.flatten_cons, List.map_nil] at *
    simp [ih]

/-- A successful `Option`-valued `mapM`: same length, and every output
element is the image of the input at the same index. -/
theorem mapM_option_some {α β : Type _} {f : α → Option β} :
    ∀ {xs : List α} {ys : List β}, xs.mapM f = some ys →
      ys.length = xs.length ∧
      ∀ i (hx : i < xs.length) (hy : i < ys.length),
        f (xs.get ⟨i, hx⟩) = some (ys.get ⟨i, hy⟩)
  | [], ys => by
    intro h
    simp only [List.mapM_nil, pure, Option.some.injEq] at h
    subst h
    exact ⟨rfl, by intro i hx; simp at hx⟩
  | x :: xs, ys => by
    intro h
    rw [List.mapM_cons] at h
    cases hx : f x with
    | none => rw [hx] at h; simp at h
    | some y =>
      rw [hx] at h
      cases hxs : xs.mapM f with
      | none => rw [hxs] at h; simp at h
      | some ys' =>
        rw [hxs] at h
        simp only [Option.bind_eq_bind, Option.some_bind, pure, Option.some.injEq] at h
        subst h
        obtain ⟨hlen, hpt⟩ := mapM_option_some hxs
        refine ⟨by simpa using hlen, ?_⟩
        intro i hix hiy
        match i with
        | 0 => simpa using hx
        | Nat.succ j => simpa using hpt j (by simpa using hix) (by simpa using hiy)

/-- Two successful `Option`-valued `mapM`s whose element functions agree
after projections have pointwise-equal projected outputs. -/
theorem mapM_option_map_congr {α β γ δ : Type _} {f : α → Option β} {f' : α → Option γ}
    {k : β → δ} {k' : γ → δ} (hf : ∀ a, (f a).map k = (f' a).map k') :
    ∀ {xs : List α} {ys : List β} {ys' : List γ},
      xs.mapM f = some ys → xs.mapM f' = some ys' → ys.map k = ys'.map k'
  | [], ys, ys' => by
    intro h h'
    simp only [List.mapM_nil, pure, Option.some.injEq] at h h'
    subst h; subst h'
    rfl
  | x :: xs, ys, ys' => by
    intro h h'
    rw [List.mapM_cons] at h h'
    cases hx : f x with
    | none => rw [hx] at h; simp at h
    | some y =>
      cases hx' : f' x with
      | none => rw [hx'] at h'; simp at h'
      | some y' =>
        rw [hx] at h; rw [hx'] at h'
        cases hxs : xs.mapM f with
        | none => rw [hxs] at h; simp at h
        | some zs =>
          cases hxs' : xs.mapM f' with
          | none => rw [hxs'] at h'; simp at h'
          | some zs' =>
            rw [hxs] at h; rw [hxs'] at h'
            simp only [Option.bind_eq_bind, Option.some_bind, pure, Option.some.injEq] at h h'
            subst h; subst h'
            have hk : k y = k' y' := by
              have := hf x
              rw [hx, hx'] at this
              simpa using this
            simp [hk, mapM_option_map_congr hf hxs hxs']

/-- `downloadGribDataSequence` in closed form when the pool size is valid:
the destination directory is `root` (flat) or `root/<subdir>` with the
subdirectory of `mkSubdir_eq`, the jobs are the `(timestep, level)` pairs in
loop order, and the batch result aggregates each job's outcome and effects.
The pool size does not occur on the right-hand side: it bounds scheduling
only, never which futures are submitted or collected. -/
theorem downloadGribDataSequence_eq (g : Flags) (env : Env) (maxW : Int) (model : String)
    (flat : Bool) (grid : Option String) (param : String) (tss lvs : List Int)
    (levtype : String) (ts : Nat) (root : String) (hW : ¬ maxW ≤ 0) (dfp : String)
    (hdfp : dfp = if flat then root
        else pathJoin root (strLower model ++ "/grib/" ++
          padLeftZeros 2 (toString (hourOf ts)) ++ "/" ++ strLower param)) :
    downloadGribDataSequence g env maxW model flat grid param tss lvs levtype ts root =
      ((jobPairs tss lvs).mapM (fun p => downloadGribData g env model grid param p.1 ts
          (some dfp) Option.none p.2 levtype)).map
        (fun collected =>
          { results := collected.map Prod.fst,
            failedAppends := (collected.map (fun c => c.2.failedAppends)).flatten,
            networkCalls := (collected.map (fun c => c.2.networkCalls)).flatten,
            writes := (collected.map (fun c => c.2.writes)).flatten,
            mkdirs := if !env.dirExists dfp ∧ !g.dryRun then [dfp] else [] }) := by
  subst hdfp
  unfold downloadGribDataSequence
  rw [if_neg hW]
  cases flat with
  | true =>
    simp only [if_pos]
    cases h : (jobPairs tss lvs).mapM (fun p => downloadGribData g env model grid param p.1 ts
        (some root) Option.none p.2 levtype) <;> simp [h]
  | false =>
    simp only [if_neg, Bool.false_eq_true, not_false_iff, mkSubdir_eq, Option.map_some']
    cases h : (jobPairs tss lvs).mapM (fun p => downloadGribData g env model grid param p.1 ts
        (some (pathJoin root (strLower model ++ "/grib/" ++
          padLeftZeros 2 (toString (hourOf ts)) ++ "/" ++
            strLower param))) Option.none p.2 levtype) <;> simp [h]

/-- The URL in a job's outcome is `getGribFileUrl`, independent of the
flags: a dry run and a real run resolve the same URL. -/
theorem downloadGribData_url (g : Flags) (env : Env) (model : String) (grid : Option String)
    (param : String) (timestep : Int) (ts : Nat) (dfp dfn : Option String)
    (level : Int) (levtype : String) :
    (downloadGribData g env model grid param timestep ts dfp dfn level levtype).map
        (fun x => x.1.url) =
      getGribFileUrl env model grid param timestep ts levtype level := by
  unfold downloadGribData
  cases h : getGribFileUrl env model grid param timestep ts levtype level <;> simp

/-- Every file the fetch worker writes is the computed destination path. -/
theorem fetch_writes_eq (g : Flags) (env : Env) (url : String) (dfp dfn : Option String) :
    ∀ p ∈ (downloadAndExtractBz2FileFromUrl g env url dfp dfn).effects.writes,
      p = fullFilePathOf g env url dfp dfn := by
  intro p hp
  by_cases hd : g.dryRun = true
  · simp [downloadAndExtractBz2FileFromUrl, hd, FetchEffects.none] at hp
  · by_cases hs : g.skipExisting = true ∧ env.fileExists (fullFilePathOf g env url dfp dfn) = true
    · simp [downloadAndExtractBz2FileFromUrl, hd, hs, FetchEffects.none] at hp
    · cases hu : env.urlopen url with
      | httpError status => simp [downloadAndExtractBz2FileFromUrl, hd, hs, hu] at hp
      | urlError => simp [downloadAndExtractBz2FileFromUrl, hd, hs, hu] at hp
      | ok data =>
        by_cases hw : env.writeOk (fullFilePathOf g env url dfp dfn) = true
        · by_cases hc : g.compressed = true
          · simp [downloadAndExtractBz2FileFromUrl, hd, hs, hu, hc, hw] at hp
            exact hp
          · cases hz : env.decompress data with
            | none => simp [downloadAndExtractBz2FileFromUrl, hd, hs, hu, hc, hz] at hp
            | some bin =>
              simp [downloadAndExtractBz2FileFromUrl, hd, hs, hu, hc, hz, hw] at hp
              exact hp
        · by_cases hc : g.compressed = true
          · simp [downloadAndExtractBz2FileFromUrl, hd, hs, hu, hc, hw] at hp
          · cases hz : env.decompress data with
            | none => simp [downloadAndExtractBz2FileFromUrl, hd, hs, hu, hc, hz] at hp
            | some bin => simp [downloadAndExtractBz2FileFromUrl, hd, hs, hu, hc, hz, hw] at hp

/-- A non-empty explicit destination directory is used as given. -/
theorem resolveDestFilePath_some (cwd dfp : String) (h : dfp ≠ "") :
    resolveDestFilePath cwd (some dfp) = dfp := by
  simp [resolveDestFilePath, h]

/-- With an explicit non-empty directory and no filename override, the
destination path is the directory joined with a derived file name. -/
theorem fullFilePathOf_some (g : Flags) (env : Env) (url : String) (dfp : String)
    (h : dfp ≠ "") :
    fullFilePathOf g env url (some dfp) Option.none =
      pathJoin dfp (if g.compressed then resolveDestFileName url Option.none ++ ".bz2"
                    else resolveDestFileName url Option.none) := by
  unfold fullFilePathOf
  rw [resolveDestFilePath_some _ _ h]
  split <;> rfl

/-- Every element of a successful `Option`-valued `mapM`'s output comes from
some input element. -/
theorem mapM_option_mem {α β : Type _} {f : α → Option β} :
    ∀ {xs : List α} {ys : List β}, xs.mapM f = some ys →
      ∀ y ∈ ys, ∃ x ∈ xs, f x = some y
  | [], ys => by
    intro h
    simp only [List.mapM_nil, pure, Option.some.injEq] at h
    subst h
    simp
  | x :: xs, ys => by
    intro h
    rw [List.mapM_cons] at h
    cases hx : f x with
    | none => rw [hx] at h; simp at h
    | some y =>
      rw [hx] at h
      cases hxs : xs.mapM f with
      | none => rw [hxs] at h; simp at h
      | some ys' =>
        rw [hxs] at h
        simp only [Option.bind_eq_bind, Option.some_bind, pure, Option.some.injEq] at h
        subst h
        intro z hz
        rcases List.mem_cons.mp hz with hz | hz
        · exact ⟨x, List.mem_cons_self x xs, by rw [hx, hz]⟩
        · obtain ⟨w, hw, hfw⟩ := mapM_option_mem hxs z hz
          exact ⟨w, List.mem_cons_of_mem x hw, hfw⟩

/-- A pool of `maxWorkers ≤ 0` raises, so a produced batch result implies a
valid pool size. -/
theorem seq_some_maxW {g : Flags} {env : Env} {maxW : Int} {model : String}
    {flat : Bool} {grid : Option String} {param : String} {tss lvs : List Int}
    {levtype : String} {ts : Nat} {root : String} {r : SeqResult}
    (h : downloadGribDataSequence g env maxW model flat grid param tss lvs levtype ts root = some r) :
    ¬ maxW ≤ 0 := by
  intro hle
  unfold downloadGribDataSequence at h
  rw [if_pos hle] at h
  exact Option.noConfusion h

/-- Under dry-run, a job's outcome is the resolved URL with no path and no
effects (line 82-84: the worker returns before any path computation, network
access, or write). -/
theorem downloadGribData_dryRun (g : Flags) (env : Env) (model : String)
    (grid : Option String) (param : String) (timestep : Int) (ts : Nat)
    (dfp dfn : Option String) (level : Int) (levtype : String)
    (hdry : g.dryRun = true) :
    downloadGribData g env model grid param timestep ts dfp dfn level levtype =
      (getGribFileUrl env model grid param timestep ts levtype level).map
        (fun u => ({ url := u, file := Option.none }, FetchEffects.none)) := by
  unfold downloadGribData downloadAndExtractBz2FileFromUrl
  cases h : getGribFileUrl env model grid param timestep ts levtype level <;>
    simp [hdry, FetchEffects.none]

/-! ## Claims -/

/-- C9: resolving the run timestamp without an explicit run, for any valid
publication delay and run interval and any clock value, yields an instant
with zero minutes and seconds (a multiple of 3600 s), an hour that is an
exact multiple of `runIntervalHours`, and an instant at or before the
current time minus the publication delay. -/
theorem c9_timestamp_resolver (w I clock : Nat) (_hI : 1 ≤ I)
    (_hclk : w * 60 ≤ clock) :
    getMostRecentModelTimestamp w I clock % 3600 = 0 ∧
    hourOf (getMostRecentModelTimestamp w I clock) % I = 0 ∧
    getMostRecentModelTimestamp w I clock ≤ clock - w * 60 := by
  simp only [getMostRecentModelTimestamp, hourOf]
  generalize clock - w * 60 = t
  generalize hrun : t % 86400 / 3600 / I * I = run
  have h1 : run ≤ t % 86400 / 3600 := by
    rw [← hrun]; exact Nat.div_mul_le_self _ _
  have h2 : t % 86400 / 3600 * 3600 ≤ t % 86400 := Nat.div_mul_le_self _ _
  have hmod : run % I = 0 := by
    rw [← hrun]; exact Nat.mul_mod_left _ _
  refine ⟨?_, ?_, ?_⟩
  · omega
  · have hh : (t - t % 86400 + run * 3600) % 86400 / 3600 = run := by omega
    rw [hh]; exact hmod
  · omega

/-- C9 witness: delay 360 min, interval 3 h, a concrete clock. -/
theorem c9_timestamp_resolver_witness :
    (1 ≤ 3 ∧ 360 * 60 ≤ 8688150) ∧
    (getMostRecentModelTimestamp 360 3 8688150 % 3600 = 0 ∧
     hourOf (getMostRecentModelTimestamp 360 3 8688150) % 3 = 0 ∧
     getMostRecentModelTimestamp 360 3 8688150 ≤ 8688150 - 360 * 60) :=
  ⟨⟨by decide, by decide⟩, c9_timestamp_resolver 360 3 8688150 (by decide) (by decide)⟩

/-- C6 counterexample: with one failed job recorded, the process still exits
with status 0, not 1 — the claim that the exit status equals the number of
failed jobs is false (the tally block at lines 499-509 is a string literal,
never executed). -/
theorem c6_counterexample :
    mainExitStatus [("https://host/t_2m_000.grib2.bz2", 404)] = 0 ∧
    ([("https://host/t_2m_000.grib2.bz2", 404)] : List FailedEntry).length = 1 ∧
    (0 : Nat) ≠ 1 := by decide

/-- C6 amended: whatever failures a completed batch accumulated, the process
exit status is 0 (the failure-tally exit logic is inert). -/
theorem c6_exit_status_amended (g : Flags) (env : Env) (maxW : Int) (model : String)
    (flat : Bool) (grid : Option String) (param : String) (tss lvs : List Int)
    (levtype : String) (ts : Nat) (root : String) (r : SeqResult)
    (_h : downloadGribDataSequence g env maxW model flat grid param tss lvs
        levtype ts root = some r) :
    mainExitStatus r.failedAppends = 0 := rfl

/-- C6 witness: a concrete batch with an HTTP-failed job still exits 0. -/
theorem c6_exit_status_witness :
    (downloadGribDataSequence flagsW envHttp404W 20 "icon-eu" true Option.none "T_2m"
        [0, 1] [0] "single-level" 0 "data" =
      some { results := [{ url := "https://host/t_2m_000.grib2.bz2", file := Option.none },
                         { url := "https://host/t_2m_001.grib2.bz2",
                           file := some "data/t_2m_001.grib2" }],
             failedAppends := [("https://host/t_2m_000.grib2.bz2", 404)],
             networkCalls := ["https://host/t_2m_000.grib2.bz2",
                              "https://host/t_2m_001.grib2.bz2"],
             writes := ["data/t_2m_001.grib2"],
             mkdirs := ["data"] }) ∧
    mainExitStatus
      (SeqResult.failedAppends
        { results := [{ url := "https://host/t_2m_000.grib2.bz2", file := Option.none },
                      { url := "https://host/t_2m_001.grib2.bz2",
                        file := some "data/t_2m_001.grib2" }],
          failedAppends := [("https://host/t_2m_000.grib2.bz2", 404)],
          networkCalls := ["https://host/t_2m_000.grib2.bz2",
                           "https://host/t_2m_001.grib2.bz2"],
          writes := ["data/t_2m_001.grib2"],
          mkdirs := ["data"] }) = 0 :=
  ⟨by decide,
   c6_exit_status_amended flagsW envHttp404W 20 "icon-eu" true Option.none "T_2m"
     [0, 1] [0] "single-level" 0 "data" _ (by decide)⟩

/-- C8 counterexample: with `minModelLevel = 0` and `maxModelLevel = 5`
against a spec whose default bounds are `[2, 90]`, the code expands to
`[2..5]` — the default minimum is used even though only one bound is 0,
contradicting the claim that defaults apply exactly when both bounds are 0
(which would give `[0..5]`). -/
theorem c8_counterexample :
    levelRangeOf 0 5 cfgW = [2, 3, 4, 5] ∧
    intRange 0 5 = [0, 1, 2, 3, 4, 5] ∧
    ([2, 3, 4, 5] : List Int) ≠ [0, 1, 2, 3, 4, 5] := by decide

/-- C8 amended: the model-level range is the inclusive range whose lower
(resp. upper) bound is the request's bound when it is positive and the
`ModelSpec` default otherwise — each bound falls back independently. -/
theorem c8_level_range_amended (argMin argMax : Int) (cfg : ModelSpec) (l : Int) :
    l ∈ levelRangeOf argMin argMax cfg ↔
      ((if 0 < argMin then argMin else cfg.minlevel.getD 0) ≤ l ∧
        l ≤ if 0 < argMax then argMax else cfg.maxlevel.getD 0) := by
  unfold levelRangeOf effectiveMinModelLevel effectiveMaxModelLevel
  exact mem_intRange _ _ _

/-- C10 counterexample: a grid not in the model's grid list is silently
replaced by the first grid — the URL renders with `icosahedral`, not with
the supplied `bogus` and not with an error. -/
theorem c10_counterexample :
    getGribFileUrl envGridW "icon-eu" (some "bogus") "p" 0 0 "single-level" 0 =
      some "icosahedral" ∧
    "bogus" ∉ cfgGridW.grids ∧
    ("icosahedral" : String) ≠ "bogus" := by decide

/-- C10 amended: an omitted grid resolves to the first entry of the model's
grid list; a supplied grid in the list is used as given; a supplied grid not
in the list is silently replaced by the first entry. -/
theorem c10_grid_resolution_amended (cfg : ModelSpec) (_h : cfg.grids ≠ []) :
    resolveGrid cfg Option.none = cfg.grids.headD "" ∧
    (∀ s, s ∈ cfg.grids → resolveGrid cfg (some s) = s) ∧
    (∀ s, s ∉ cfg.grids → resolveGrid cfg (some s) = cfg.grids.headD "") := by
  refine ⟨rfl, ?_, ?_⟩
  · intro s hs
    simp [resolveGrid, hs]
  · intro s hs
    simp [resolveGrid, hs]

/-- C10 witness: on the concrete catalog entry, a listed grid is kept. -/
theorem c10_grid_resolution_witness :
    cfgW.grids ≠ [] ∧ resolveGrid cfgW (some "regular-lat-lon") = "regular-lat-lon" :=
  ⟨by decide,
   (c10_grid_resolution_amended cfgW (by decide)).2.1 "regular-lat-lon" (by decide)⟩

/-- C3 counterexample: expansion with `maxStep < minStep` (here 0 < 1) and a
pressure-level request with an empty level list both run to completion with
zero jobs and no error of any kind — no `EmptyStepRange` or
`EmptyLevelRange` exists anywhere in the code. -/
theorem c3_counterexample :
    timeStepsOf 1 0 = [] ∧
    downloadGribDataSequence flagsW envW 20 "icon-eu" true Option.none "t_2m"
        (timeStepsOf 1 0) [0] "single-level" 0 "data" =
      some { results := [], failedAppends := [], networkCalls := [], writes := [],
             mkdirs := ["data"] } ∧
    downloadGribDataSequence flagsW envW 20 "icon-eu" true Option.none "t_2m"
        [0] ([] : List Int) "pressure-level" 0 "data" =
      some { results := [], failedAppends := [], networkCalls := [], writes := [],
             mkdirs := ["data"] } := by decide

/-- C3 amended: `maxStep < minStep` yields an empty step list
(`list(range(minStep, maxStep + 1))`), and an empty step list or an empty
level list makes the batch complete silently with zero outcomes and no
network access, file writes, or failure entries — no error is raised. -/
theorem c3_empty_ranges_amended (minS maxS : Int) (g : Flags) (env : Env) (maxW : Int)
    (model : String) (flat : Bool) (grid : Option String) (param : String)
    (lvs tss : List Int) (levtype : String) (ts : Nat) (root : String)
    (hW : ¬ maxW ≤ 0) (hst : maxS < minS) :
    timeStepsOf minS maxS = [] ∧
    (∃ r, downloadGribDataSequence g env maxW model flat grid param
        (timeStepsOf minS maxS) lvs levtype ts root = some r ∧
      r.results = [] ∧ r.failedAppends = [] ∧ r.networkCalls = [] ∧ r.writes = []) ∧
    (∃ r, downloadGribDataSequence g env maxW model flat grid param
        tss [] levtype ts root = some r ∧
      r.results = [] ∧ r.failedAppends = [] ∧ r.networkCalls = [] ∧ r.writes = []) := by
  have hnil : timeStepsOf minS maxS = [] := intRange_eq_nil _ _ hst
  refine ⟨hnil, ?_, ?_⟩
  · rw [downloadGribDataSequence_eq g env maxW model flat grid param _ lvs levtype
      ts root hW _ rfl, hnil]
    have hjp : jobPairs [] lvs = [] := rfl
    rw [hjp]
    exact ⟨_, rfl, rfl, rfl, rfl, rfl⟩
  · rw [downloadGribDataSequence_eq g env maxW model flat grid param tss [] levtype
      ts root hW _ rfl, jobPairs_nil_right]
    exact ⟨_, rfl, rfl, rfl, rfl, rfl⟩

/-- C3 witness: the amended behaviour at concrete inputs. -/
theorem c3_empty_ranges_witness :
    (¬ (20 : Int) ≤ 0 ∧ (0 : Int) < 1) ∧ timeStepsOf 1 0 = [] :=
  ⟨⟨by decide, by decide⟩,
   (c3_empty_ranges_amended 1 0 flagsW envW 20 "icon-eu" true Option.none "t_2m"
     [0] [0] "single-level" 0 "data" (by decide) (by decide)).1⟩

/-- C5 counterexample: the skip return is the very same value a successful
download returns (`fullFilePath`), so a Skipped outcome is not
distinguishable from a success-with-path outcome; it does avoid network
access (and is distinguishable from a failure, which returns `None`). -/
theorem c5_counterexample :
    downloadAndExtractBz2FileFromUrl flagsW envExistsW
        "https://host/t_2m_000.grib2.bz2" (some "data") Option.none =
      { ret := some "data/t_2m_000.grib2", effects := FetchEffects.none } ∧
    (downloadAndExtractBz2FileFromUrl flagsW envW
        "https://host/t_2m_000.grib2.bz2" (some "data") Option.none).ret =
      some "data/t_2m_000.grib2" ∧
    (downloadAndExtractBz2FileFromUrl flagsW envW
        "https://host/t_2m_000.grib2.bz2" (some "data") Option.none).effects.networkCalls =
      ["https://host/t_2m_000.grib2.bz2"] ∧
    (downloadAndExtractBz2FileFromUrl flagsW envExistsW
        "https://host/t_2m_000.grib2.bz2" (some "data") Option.none).ret =
      (downloadAndExtractBz2FileFromUrl flagsW envW
        "https://host/t_2m_000.grib2.bz2" (some "data") Option.none).ret := by decide

/-- C5 amended: with `skip-existing` set and the destination present, the
worker returns the destination path without any network access or write —
the same return value as a success, so distinguishable from a failure
(`None`) but not from a success-with-path. -/
theorem c5_skip_existing_amended (g : Flags) (env : Env) (url : String)
    (dfp dfn : Option String) (hdry : g.dryRun = false) (hskip : g.skipExisting = true)
    (hex : env.fileExists (fullFilePathOf g env url dfp dfn) = true) :
    downloadAndExtractBz2FileFromUrl g env url dfp dfn =
      { ret := some (fullFilePathOf g env url dfp dfn), effects := FetchEffects.none } := by
  simp [downloadAndExtractBz2FileFromUrl, hdry, hskip, hex]

/-- C5 witness: the amended behaviour at concrete inputs. -/
theorem c5_skip_existing_witness :
    (flagsW.dryRun = false ∧ flagsW.skipExisting = true ∧
      envExistsW.fileExists (fullFilePathOf flagsW envExistsW
        "https://host/t_2m_000.grib2.bz2" (some "data") Option.none) = true) ∧
    downloadAndExtractBz2FileFromUrl flagsW envExistsW
        "https://host/t_2m_000.grib2.bz2" (some "data") Option.none =
      { ret := some (fullFilePathOf flagsW envExistsW
          "https://host/t_2m_000.grib2.bz2" (some "data") Option.none),
        effects := FetchEffects.none } :=
  ⟨⟨rfl, rfl, by decide⟩,
   c5_skip_existing_amended flagsW envExistsW
     "https://host/t_2m_000.grib2.bz2" (some "data") Option.none rfl rfl (by decide)⟩

/-- C2 counterexample: a transport-failed job is recovered (no exception,
`None` return) and the network was attempted, but the batch failure data
(`failedFiles`) receives no entry at all — contradicting the claim that
every per-job failure is reported with its cause in the failure data. -/
theorem c2_counterexample :
    (downloadAndExtractBz2FileFromUrl flagsW envUrlErrW
        "https://host/u.grib2.bz2" (some "data") Option.none).ret = Option.none ∧
    (downloadAndExtractBz2FileFromUrl flagsW envUrlErrW
        "https://host/u.grib2.bz2" (some "data") Option.none).effects.failedAppends = [] ∧
    (downloadAndExtractBz2FileFromUrl flagsW envUrlErrW
        "https://host/u.grib2.bz2" (some "data") Option.none).effects.networkCalls =
      ["https://host/u.grib2.bz2"] := by decide

/-- C2 amended: every per-job failure kind (HTTP status, transport,
decompression, filesystem write) is recovered inside the fetch worker, which
returns `None` instead of raising; but only HTTP-status failures are
recorded in the batch failure data, as `(url, status)` — transport,
decompression and write failures leave the failure data empty. -/
theorem c2_failure_recovery_amended (g : Flags) (env : Env) (url : String)
    (dfp dfn : Option String) (hdry : g.dryRun = false)
    (hnoskip : ¬(g.skipExisting = true ∧
      env.fileExists (fullFilePathOf g env url dfp dfn) = true)) :
    (∀ status, env.urlopen url = .httpError status →
      (downloadAndExtractBz2FileFromUrl g env url dfp dfn).ret = Option.none ∧
      (downloadAndExtractBz2FileFromUrl g env url dfp dfn).effects.failedAppends =
        [(url, status)]) ∧
    (env.urlopen url = .urlError →
      (downloadAndExtractBz2FileFromUrl g env url dfp dfn).ret = Option.none ∧
      (downloadAndExtractBz2FileFromUrl g env url dfp dfn).effects.failedAppends = [] ∧
      (downloadAndExtractBz2FileFromUrl g env url dfp dfn).effects.writes = []) ∧
    (∀ data, env.urlopen url = .ok data → g.compressed = false →
      env.decompress data = Option.none →
      (downloadAndExtractBz2FileFromUrl g env url dfp dfn).ret = Option.none ∧
      (downloadAndExtractBz2FileFromUrl g env url dfp dfn).effects.failedAppends = [] ∧
      (downloadAndExtractBz2FileFromUrl g env url dfp dfn).effects.writes = []) ∧
    (∀ data, env.urlopen url = .ok data →
      env.writeOk (fullFilePathOf g env url dfp dfn) = false →
      (downloadAndExtractBz2FileFromUrl g env url dfp dfn).ret = Option.none ∧
      (downloadAndExtractBz2FileFromUrl g env url dfp dfn).effects.failedAppends = [] ∧
      (downloadAndExtractBz2FileFromUrl g env url dfp dfn).effects.writes = []) := by
  refine ⟨?_, ?_, ?_, ?_⟩
  · intro status hu
    constructor <;> simp [downloadAndExtractBz2FileFromUrl, hdry, hnoskip, hu]
  · intro hu
    refine ⟨?_, ?_, ?_⟩ <;> simp [downloadAndExtractBz2FileFromUrl, hdry, hnoskip, hu]
  · intro data hu hc hz
    refine ⟨?_, ?_, ?_⟩ <;>
      simp [downloadAndExtractBz2FileFromUrl, hdry, hnoskip, hu, hc, hz]
  · intro data hu hw
    by_cases hc : g.compressed = true
    · refine ⟨?_, ?_, ?_⟩ <;>
        simp [downloadAndExtractBz2FileFromUrl, hdry, hnoskip, hu, hc, hw]
    · cases hz : env.decompress data with
      | none =>
        refine ⟨?_, ?_, ?_⟩ <;>
          simp [downloadAndExtractBz2FileFromUrl, hdry, hnoskip, hu, hc, hz]
      | some bin =>
        refine ⟨?_, ?_, ?_⟩ <;>
          simp [downloadAndExtractBz2FileFromUrl, hdry, hnoskip, hu, hc, hz, hw]

/-- C4 counterexample: under dry-run the worker returns at line 84, before
computing the destination path, so the outcome carries `file = None` — not
the would-be path a real run produces — although the URL matches. The claim
that dry-run returns Success with the would-be path is false. -/
theorem c4_counterexample :
    downloadGribData flagsDryW envW "icon-eu" Option.none "t_2m" 0 0 (some "data")
        Option.none 0 "single-level" =
      some ({ url := "https://host/t_2m_000.grib2.bz2", file := Option.none },
            FetchEffects.none) ∧
    downloadGribData flagsW envW "icon-eu" Option.none "t_2m" 0 0 (some "data")
        Option.none 0 "single-level" =
      some ({ url := "https://host/t_2m_000.grib2.bz2",
              file := some "data/t_2m_000.grib2" },
            { networkCalls := ["https://host/t_2m_000.grib2.bz2"],
              writes := ["data/t_2m_000.grib2"], failedAppends := [] }) ∧
    (Option.none : Option String) ≠ some "data/t_2m_000.grib2" := by decide

/-- C4 amended: a dry-run batch performs no network calls, file writes, or
directory creations, records no failures, and resolves the same URLs as any
run of the same batch with other flags; but every dry-run outcome carries
`file = None` (no would-be destination path), the same shape as a failed
job. -/
theorem c4_dry_run_amended (g g' : Flags) (env : Env) (maxW maxW' : Int)
    (model : String) (flat : Bool) (grid : Option String) (param : String)
    (tss lvs : List Int) (levtype : String) (ts : Nat) (root : String)
    (r r' : SeqResult) (hdry : g.dryRun = true)
    (h : downloadGribDataSequence g env maxW model flat grid param tss lvs
        levtype ts root = some r)
    (h' : downloadGribDataSequence g' env maxW' model flat grid param tss lvs
        levtype ts root = some r') :
    r.networkCalls = [] ∧ r.writes = [] ∧ r.mkdirs = [] ∧ r.failedAppends = [] ∧
    (∀ jr ∈ r.results, jr.file = Option.none) ∧
    r.results.map JobResult.url = r'.results.map JobResult.url := by
  have hW := seq_some_maxW h
  have hW' := seq_some_maxW h'
  rw [downloadGribDataSequence_eq g env maxW model flat grid param tss lvs levtype
    ts root hW _ rfl] at h
  rw [downloadGribDataSequence_eq g' env maxW' model flat grid param tss lvs levtype
    ts root hW' _ rfl] at h'
  cases hm : (jobPairs tss lvs).mapM (fun p => downloadGribData g env model grid param p.1 ts
      (some (if flat then root else pathJoin root (strLower model ++ "/grib/" ++
        padLeftZeros 2 (toString (hourOf ts)) ++ "/" ++ strLower param)))
      Option.none p.2 levtype) with
  | none => rw [hm] at h; simp at h
  | some collected =>
    rw [hm] at h
    simp only [Option.map_some', Option.some.injEq] at h
    cases hm' : (jobPairs tss lvs).mapM (fun p => downloadGribData g' env model grid param p.1 ts
        (some (if flat then root else pathJoin root (strLower model ++ "/grib/" ++
          padLeftZeros 2 (toString (hourOf ts)) ++ "/" ++ strLower param)))
        Option.none p.2 levtype) with
    | none => rw [hm'] at h'; simp at h'
    | some collected' =>
      rw [hm'] at h'
      simp only [Option.map_some', Option.some.injEq] at h'
      subst h; subst h'
      have hall : ∀ c ∈ collected, c.2 = FetchEffects.none ∧ c.1.file = Option.none := by
        intro c hc
        obtain ⟨p, hp, hfp⟩ := mapM_option_mem hm c hc
        rw [downloadGribData_dryRun g env model grid param p.1 ts _ Option.none p.2
          levtype hdry] at hfp
        cases hg : getGribFileUrl env model grid param p.1 ts levtype p.2 with
        | none => rw [hg] at hfp; simp at hfp
        | some u =>
          rw [hg] at hfp
          simp only [Option.map_some', Option.some.injEq] at hfp
          rw [← hfp]
          exact ⟨rfl, rfl⟩
      refine ⟨?_, ?_, ?_, ?_, ?_, ?_⟩
      · rw [List.flatten_eq_nil_iff]
        intro l hl
        obtain ⟨c, hc, rfl⟩ := List.mem_map.mp hl
        rw [(hall c hc).1]
        rfl
      · rw [List.flatten_eq_nil_iff]
        intro l hl
        obtain ⟨c, hc, rfl⟩ := List.mem_map.mp hl
        rw [(hall c hc).1]
        rfl
      · simp [hdry]
      · rw [List.flatten_eq_nil_iff]
        intro l hl
        obtain ⟨c, hc, rfl⟩ := List.mem_map.mp hl
        rw [(hall c hc).1]
        rfl
      · intro jr hjr
        obtain ⟨c, hc, rfl⟩ := List.mem_map.mp hjr
        exact (hall c hc).2
      · rw [List.map_map, List.map_map]
        exact mapM_option_map_congr
          (fun p =>
            (downloadGribData_url g env model grid param p.1 ts _ Option.none p.2
              levtype).trans
              (downloadGribData_url g' env model grid param p.1 ts _ Option.none p.2
                levtype).symm)
          hm hm'

/-- C4 witness: a one-job dry run next to the same batch run for real. -/
theorem c4_dry_run_witness :
    (flagsDryW.dryRun = true ∧
     downloadGribDataSequence flagsDryW envW 2 "icon-eu" true Option.none "t_2m"
       [0] [0] "single-level" 0 "data" = some seqDryW ∧
     downloadGribDataSequence flagsW envW 1 "icon-eu" true Option.none "t_2m"
       [0] [0] "single-level" 0 "data" = some seqRealW) ∧
    (seqDryW.networkCalls = [] ∧ seqDryW.writes = [] ∧ seqDryW.mkdirs = [] ∧
     seqDryW.failedAppends = [] ∧
     (∀ jr ∈ seqDryW.results, jr.file = Option.none) ∧
     seqDryW.results.map JobResult.url = seqRealW.results.map JobResult.url) :=
  ⟨⟨rfl, by decide, by decide⟩,
   c4_dry_run_amended flagsDryW flagsW envW 2 1 "icon-eu" true Option.none "t_2m"
     [0] [0] "single-level" 0 "data" seqDryW seqRealW rfl (by decide) (by decide)⟩

/-- C7 counterexample: with flatten off, the file lands under
`data/icon-eu/grib/01/t_2m/`, not under the claimed
`data/icon-eu/01/t_2m/`: the real path has a literal `grib` component
(from `dwdPattern`, line 44) that the claim omits. -/
theorem c7_counterexample :
    (downloadGribDataSequence flagsW envW 20 "icon-eu" false Option.none "t_2m"
        [0] [0] "single-level" 3600 "data").map SeqResult.writes =
      some ["data/icon-eu/grib/01/t_2m/t_2m_000.grib2"] ∧
    ("data/icon-eu/grib/01/t_2m/t_2m_000.grib2" : String) ≠
      "data/icon-eu/01/t_2m/t_2m_000.grib2" := by decide

/-- C7 amended: with flatten off, every output file is written under
`<destRoot>/<model lowercased>/grib/<runHour:02d>/<field lowercased>/<filename>`
(the remote tree mirrored including its literal `grib` component); with
flatten on, every output file is written directly under `<destRoot>`. -/
theorem c7_layout_amended (g : Flags) (env : Env) (maxW : Int) (model : String)
    (flat : Bool) (grid : Option String) (param : String) (tss lvs : List Int)
    (levtype : String) (ts : Nat) (root : String) (r : SeqResult)
    (hroot : root ≠ "")
    (h : downloadGribDataSequence g env maxW model flat grid param tss lvs
        levtype ts root = some r) :
    (flat = false → ∀ p ∈ r.writes, ∃ fname,
      p = root ++ "/" ++ strLower model ++ "/grib/" ++
          padLeftZeros 2 (toString (hourOf ts)) ++ "/" ++ strLower param ++ "/" ++ fname) ∧
    (flat = true → ∀ p ∈ r.writes, ∃ fname, p = root ++ "/" ++ fname) := by
  have hW := seq_some_maxW h
  cases flat with
  | false =>
    rw [downloadGribDataSequence_eq g env maxW model false grid param tss lvs levtype
      ts root hW (pathJoin root (strLower model ++ "/grib/" ++
        padLeftZeros 2 (toString (hourOf ts)) ++ "/" ++ strLower param)) (by simp)] at h
    refine ⟨fun _ => ?_, fun hcontra => by simp at hcontra⟩
    intro p hp
    cases hm : (jobPairs tss lvs).mapM (fun pr => downloadGribData g env model grid param pr.1 ts
        (some (pathJoin root (strLower model ++ "/grib/" ++
          padLeftZeros 2 (toString (hourOf ts)) ++ "/" ++ strLower param)))
        Option.none pr.2 levtype) with
    | none => rw [hm] at h; simp at h
    | some collected =>
      rw [hm] at h
      simp only [Option.map_some', Option.some.injEq] at h
      subst h
      simp only at hp
      obtain ⟨l, hl, hpl⟩ := List.mem_flatten.mp hp
      obtain ⟨c, hc, rfl⟩ := List.mem_map.mp hl
      obtain ⟨pr, hpr, hfpr⟩ := mapM_option_mem hm c hc
      revert hfpr
      unfold downloadGribData
      cases hg : getGribFileUrl env model grid param pr.1 ts levtype pr.2 with
      | none => intro hfpr; exact absurd hfpr (by simp)
      | some u =>
        intro hfpr
        simp only [Option.some.injEq] at hfpr
        have heq : c.2 = (downloadAndExtractBz2FileFromUrl g env u
            (some (pathJoin root (strLower model ++ "/grib/" ++
              padLeftZeros 2 (toString (hourOf ts)) ++ "/" ++ strLower param)))
            Option.none).effects := by rw [← hfpr]
        rw [heq] at hpl
        have hpe := fetch_writes_eq g env u _ Option.none p hpl
        rw [fullFilePathOf_some g env u _ (pathJoin_ne_empty _ _)] at hpe
        refine ⟨(if g.compressed = true then resolveDestFileName u Option.none ++ ".bz2"
                 else resolveDestFileName u Option.none), ?_⟩
        rw [hpe]
        simp [pathJoin, String.append_assoc]
  | true =>
    rw [downloadGribDataSequence_eq g env maxW model true grid param tss lvs levtype
      ts root hW root (by simp)] at h
    refine ⟨fun hcontra => by simp at hcontra, fun _ => ?_⟩
    intro p hp
    cases hm : (jobPairs tss lvs).mapM (fun pr => downloadGribData g env model grid param pr.1 ts
        (some root) Option.none pr.2 levtype) with
    | none => rw [hm] at h; simp at h
    | some collected =>
      rw [hm] at h
      simp only [Option.map_some', Option.some.injEq] at h
      subst h
      simp only at hp
      obtain ⟨l, hl, hpl⟩ := List.mem_flatten.mp hp
      obtain ⟨c, hc, rfl⟩ := List.mem_map.mp hl
      obtain ⟨pr, hpr, hfpr⟩ := mapM_option_mem hm c hc
      revert hfpr
      unfold downloadGribData
      cases hg : getGribFileUrl env model grid param pr.1 ts levtype pr.2 with
      | none => intro hfpr; exact absurd hfpr (by simp)
      | some u =>
        intro hfpr
        simp only [Option.some.injEq] at hfpr
        have heq : c.2 = (downloadAndExtractBz2FileFromUrl g env u (some root)
            Option.none).effects := by rw [← hfpr]
        rw [heq] at hpl
        have hpe := fetch_writes_eq g env u _ Option.none p hpl
        rw [fullFilePathOf_some g env u _ hroot] at hpe
        exact ⟨(if g.compressed = true then resolveDestFileName u Option.none ++ ".bz2"
                else resolveDestFileName u Option.none), hpe⟩

/-- C7 witness: the amended layout at a concrete non-flat run. -/
theorem c7_layout_witness :
    (("data" : String) ≠ "" ∧
     downloadGribDataSequence flagsW envW 20 "icon-eu" false Option.none "t_2m"
       [0] [0] "single-level" 3600 "data" = some seqTreeW) ∧
    ((false = false → ∀ p ∈ seqTreeW.writes, ∃ fname,
        p = "data" ++ "/" ++ strLower "icon-eu" ++ "/grib/" ++
            padLeftZeros 2 (toString (hourOf 3600)) ++ "/" ++ strLower "t_2m" ++
            "/" ++ fname) ∧
     (false = true → ∀ p ∈ seqTreeW.writes, ∃ fname, p = "data" ++ "/" ++ fname)) :=
  ⟨⟨by decide, by decide⟩,
   c7_layout_amended flagsW envW 20 "icon-eu" false Option.none "t_2m" [0] [0]
     "single-level" 3600 "data" seqTreeW (by decide) (by decide)⟩

/-- C1: a batch over N = |timeSteps| × |levelRange| jobs produces exactly N
outcomes; the result is identical for every valid pool size; and each job's
outcome is a function of that job alone (so a failed job — an outcome with
`file = None` — never prevents or alters the outcomes of the other jobs,
which the fetch worker guarantees by recovering every per-job download
failure instead of raising). -/
theorem c1_batch_outcomes (g : Flags) (env : Env) (maxW maxW' : Int) (model : String)
    (flat : Bool) (grid : Option String) (param : String) (tss lvs : List Int)
    (levtype : String) (ts : Nat) (root : String) (r : SeqResult)
    (hW' : ¬ maxW' ≤ 0)
    (h : downloadGribDataSequence g env maxW model flat grid param tss lvs
        levtype ts root = some r) :
    r.results.length = tss.length * lvs.length ∧
    downloadGribDataSequence g env maxW' model flat grid param tss lvs
      levtype ts root = some r ∧
    ∃ dfp, ∀ i (hx : i < (jobPairs tss lvs).length) (hy : i < r.results.length),
      (downloadGribData g env model grid param ((jobPairs tss lvs).get ⟨i, hx⟩).1 ts
          (some dfp) Option.none ((jobPairs tss lvs).get ⟨i, hx⟩).2 levtype).map Prod.fst =
        some (r.results.get ⟨i, hy⟩) := by
  have hW := seq_some_maxW h
  rw [downloadGribDataSequence_eq g env maxW model flat grid param tss lvs levtype
    ts root hW _ rfl] at h
  cases hm : (jobPairs tss lvs).mapM (fun p => downloadGribData g env model grid param p.1 ts
      (some (if flat then root else pathJoin root (strLower model ++ "/grib/" ++
        padLeftZeros 2 (toString (hourOf ts)) ++ "/" ++ strLower param)))
      Option.none p.2 levtype) with
  | none => rw [hm] at h; simp at h
  | some collected =>
    rw [hm] at h
    simp only [Option.map_some', Option.some.injEq] at h
    subst h
    obtain ⟨hlen, hpt⟩ := mapM_option_some hm
    refine ⟨?_, ?_, ?_⟩
    · simp only [List.length_map]
      rw [hlen, jobPairs_length]
    · rw [downloadGribDataSequence_eq g env maxW' model flat grid param tss lvs levtype
        ts root hW' _ rfl, hm]
      rfl
    · refine ⟨(if flat then root else pathJoin root (strLower model ++ "/grib/" ++
        padLeftZeros 2 (toString (hourOf ts)) ++ "/" ++ strLower param)), ?_⟩
      intro i hx hy
      have hy' : i < collected.length := by
        simpa only [List.length_map] using hy
      rw [hpt i hx hy']
      simp only [Option.map_some', Option.some.injEq, List.get_eq_getElem,
        List.getElem_map]

/-- C1 witness: a two-job batch with one HTTP-failed job, run with pool
sizes 2 and 1: two outcomes either way, the failed job's outcome included. -/
theorem c1_batch_outcomes_witness :
    (¬ (1 : Int) ≤ 0 ∧
     downloadGribDataSequence flagsW envHttp404W 2 "icon-eu" true Option.none "T_2m"
       [0, 1] [0] "single-level" 0 "data" = some seqFailW) ∧
    (seqFailW.results.length = ([0, 1] : List Int).length * ([0] : List Int).length ∧
     downloadGribDataSequence flagsW envHttp404W 1 "icon-eu" true Option.none "T_2m"
       [0, 1] [0] "single-level" 0 "data" = some seqFailW ∧
     ∃ dfp, ∀ i (hx : i < (jobPairs [0, 1] [0]).length)
         (hy : i < seqFailW.results.length),
       (downloadGribData flagsW envHttp404W "icon-eu" Option.none "T_2m"
           ((jobPairs [0, 1] [0]).get ⟨i, hx⟩).1 0 (some dfp) Option.none
           ((jobPairs [0, 1] [0]).get ⟨i, hx⟩).2 "single-level").map Prod.fst =
         some (seqFailW.results.get ⟨i, hy⟩)) :=
  ⟨⟨by decide, by decide⟩,
   c1_batch_outcomes flagsW envHttp404W 2 1 "icon-eu" true Option.none "T_2m"
     [0, 1] [0] "single-level" 0 "data" seqFailW (by decide) (by decide)⟩

/-- C2 witness: the HTTP-failure conjunct at a concrete 404. -/
theorem c2_failure_recovery_witness :
    (flagsW.dryRun = false ∧
     ¬(flagsW.skipExisting = true ∧
       envHttp404W.fileExists (fullFilePathOf flagsW envHttp404W
         "https://host/t_2m_000.grib2.bz2" (some "data") Option.none) = true) ∧
     envHttp404W.urlopen "https://host/t_2m_000.grib2.bz2" = .httpError 404) ∧
    ((downloadAndExtractBz2FileFromUrl flagsW envHttp404W
        "https://host/t_2m_000.grib2.bz2" (some "data") Option.none).ret = Option.none ∧
     (downloadAndExtractBz2FileFromUrl flagsW envHttp404W
        "https://host/t_2m_000.grib2.bz2" (some "data") Option.none).effects.failedAppends =
       [("https://host/t_2m_000.grib2.bz2", 404)]) :=
  ⟨⟨rfl, by decide, by decide⟩,
   (c2_failure_recovery_amended flagsW envHttp404W
     "https://host/t_2m_000.grib2.bz2" (some "data") Option.none rfl
     (by decide)).1 404 (by decide)⟩

end OpendataDownloader
